import Mathlib

/-!
Shallow embedding of the incremental refresh and change-detection core of the
GAF_Sales repository (`backend/db/connection.py`, `backend/db/models.py`,
`backend/scraper/incremental_scraper.py`), together with theorems settling the
specification claims about it.

Embedding conventions:
* Python `float` / SQL `DECIMAL` values (ratings, distances) are embedded as
  exact rationals `ℚ`; Python `int` as `ℤ`; timestamps as abstract `Nat` ticks.
* Python `None` / missing dictionary keys are `Option.none`; Python truthiness
  of an optional string/number is made explicit by the `truthy*` helpers
  (`None`, `""`, `0` and `0.0` are falsy).
* The relational store is a list of rows; `query(...).filter(col == v).first()`
  is first-match lookup, and in-place mutation of a fetched row is replacement
  of that first match.
* Exceptions are `Except String`; raising is returning `.error`.
-/

set_option maxRecDepth 8000

namespace GafSales

/-- Raw contractor field dictionary as produced by the listing scraper
(`gaf_scraper.scrape_contractors`), possibly enriched with `description` and
`certifications` by a detail fetch, and carrying the generated-insight text
alongside.  Absent keys are `none`. -/
structure ContractorData where
  name : Option String
  phone : Option String
  city : Option String
  rating : Option ℚ
  reviews_count : Option ℤ
  distance : Option ℚ
  profile_url : Option String
  description : Option String
  certifications : List String
  insights : Option String
  deriving Repr, DecidableEq

/-- Row of the `contractors` table (`models.Contractor`).  The LLM-evaluation
score columns are omitted: the code under verification never reads or writes
them. -/
structure Contractor where
  gaf_id : Option String
  name : Option String
  phone : Option String
  location : Option String
  distance : Option ℚ
  rating : Option ℚ
  reviews_count : Option ℤ
  profile_url : String
  description : Option String
  certifications : List String
  ai_insights : Option (List String)
  data_hash : Option String
  last_scraped_at : Option Nat
  deriving Repr, DecidableEq

/-- Row of the `scrape_runs` table (`models.ScrapeRun`). -/
structure ScrapeRun where
  id : Nat
  zipcode : String
  distance : ℤ
  contractors_found : Option Nat
  contractors_new : Option Nat
  contractors_updated : Option Nat
  started_at : Nat
  completed_at : Option Nat
  status : String
  error_message : Option String
  deriving Repr, DecidableEq

/-- Python truthiness of an optional string: `None` and `""` are falsy. -/
def truthyStr : Option String → Bool
  | none => false
  | some s => s ≠ ""

/-- Python truthiness of an optional number: `None`, `0` and `0.0` are falsy. -/
def truthyQ : Option ℚ → Bool
  | none => false
  | some q => q ≠ 0

/-- Python truthiness of an optional integer. -/
def truthyZ : Option ℤ → Bool
  | none => false
  | some z => z ≠ 0

/-! ### Normalizer (`DatabaseManager.clean_phone_number`, `clean_certifications`,
`extract_gaf_id`) -/

/-- The `+1 (xxx) xxx-xxxx` formatting step of `clean_phone_number`
(`f"+1 ({digits[:3]}) {digits[3:6]}-{digits[6:]}"`). -/
def formatPhone (ds : List Char) : String :=
  "+1 (" ++ String.mk (ds.take 3) ++ ") " ++ String.mk ((ds.drop 3).take 3)
    ++ "-" ++ String.mk (ds.drop 6)

/-- Embedding of `DatabaseManager.clean_phone_number`: strips non-digits; an 11-digit string
with a leading `1` loses it; exactly 10 digits are reformatted; any other digit
count returns the original input; falsy input returns `None`. -/
def clean_phone_number (phone : Option String) : Option String :=
  match phone with
  | none => none
  | some s =>
    if s = "" then none
    else
      let digits := s.data.filter Char.isDigit
      if digits.length = 11 ∧ digits.head? = some '1' then
        some (formatPhone (digits.drop 1))
      else if digits.length ≠ 10 then
        some s
      else
        some (formatPhone digits)

/-- Splitting a character list at every occurrence of a separator, matching
Python `str.split(sep)` for a one-character separator (the only kind the
source uses). -/
def splitChar (sep : Char) : List Char → List (List Char)
  | [] => [[]]
  | x :: xs =>
    match splitChar sep xs with
    | [] => if x = sep then [[], []] else [[x]]
    | h :: t => if x = sep then [] :: h :: t else (x :: h) :: t

/-- Python `str.strip()`: drop leading and trailing whitespace characters. -/
def trimChars (l : List Char) : List Char :=
  ((l.dropWhile Char.isWhitespace).reverse.dropWhile Char.isWhitespace).reverse

/-- The fixed header/label lines skipped by `clean_certifications`. -/
def skip_phrases : List String :=
  ["Certifications & Awards", "Certifications and Awards", "Certifications",
   "Awards", "Award", "Certification"]

/-- The inner `for prefix in skip_phrases` loop of `clean_certifications`:
strips a leading label followed by a newline or a colon, then re-trims
(`startswith`, slicing and `strip` are taken on the character lists). -/
def stripSkipLabels (line : String) : String :=
  skip_phrases.foldl
    (fun l p =>
      if List.isPrefixOf (p.data ++ ['\n']) l.data then
        String.mk (trimChars (l.data.drop p.length))
      else if List.isPrefixOf (p.data ++ [':']) l.data then
        String.mk (trimChars (l.data.drop (p.length + 1)))
      else l)
    line

/-- Processing of one raw certification entry by `clean_certifications`:
split on newlines, trim, drop exact header labels, strip label markers, keep
lines longer than 3 characters that are not header labels. -/
def certEntryLines (cert : String) : List String :=
  ((splitChar '\n' cert.data).map String.mk).foldl
    (fun acc line0 =>
      let line1 := String.mk (trimChars line0.data)
      if line1 ∈ skip_phrases then acc
      else
        let line := stripSkipLabels line1
        if line.length > 3 ∧ line ∉ skip_phrases then acc ++ [line] else acc)
    []

/-- String comparison used to embed Python `sorted` over strings. -/
def strLE (a b : String) : Bool := ¬ b < a

/-- Embedding of `DatabaseManager.clean_certifications`: gathers qualifying lines from all
entries, deduplicates (the Python `set`), and returns them sorted. -/
def clean_certifications (certs : List String) : List String :=
  if certs = [] then []
  else
    ((certs.foldl (fun acc cert =>
        if cert = "" then acc else acc ++ certEntryLines cert) []).dedup).mergeSort
      strLE

/-- Python `str.isdigit` on an ASCII string: nonempty and all digits. -/
def pyIsDigit (s : String) : Bool := s.data ≠ [] && s.data.all Char.isDigit

/-- Embedding of `DatabaseManager.extract_gaf_id`: last dash-delimited numeric suffix of the
URL's last path segment, else the full URL; falsy input gives `None`
(`rstrip`, `split` and `in` are taken on the character list). -/
def extract_gaf_id (profile_url : String) : Option String :=
  if profile_url = "" then none
  else
    let parts := splitChar '/'
      ((profile_url.data.reverse.dropWhile (· = '/')).reverse)
    match parts.getLast? with
    | none => some profile_url
    | some last_part =>
      if last_part.contains '-' then
        match (splitChar '-' last_part).getLast? with
        | none => some profile_url
        | some potential_id =>
          if pyIsDigit (String.mk potential_id) then some (String.mk potential_id)
          else some profile_url
      else some profile_url

/-! ### Content hasher (`DatabaseManager.calculate_data_hash`) -/

/-- Lowercase hexadecimal digit. -/
def hexChar (n : Nat) : Char :=
  if n < 10 then Char.ofNat (48 + n) else Char.ofNat (87 + n)

/-- Four lowercase hex digits. -/
def hex4 (n : Nat) : String :=
  String.mk [hexChar (n / 4096 % 16), hexChar (n / 256 % 16),
             hexChar (n / 16 % 16), hexChar (n % 16)]

/-- Escaping of a single character by `json.dumps` (default `ensure_ascii=True`). -/
def jsonEscapeChar (c : Char) : String :=
  if c = '"' then "\\\""
  else if c = '\\' then "\\\\"
  else if c = '\n' then "\\n"
  else if c = '\r' then "\\r"
  else if c = '\t' then "\\t"
  else if c.toNat = 8 then "\\b"
  else if c.toNat = 12 then "\\f"
  else if c.toNat < 32 then "\\u" ++ hex4 c.toNat
  else if c.toNat < 127 then String.mk [c]
  else if c.toNat < 65536 then "\\u" ++ hex4 c.toNat
  else
    let v := c.toNat - 65536
    "\\u" ++ hex4 (55296 + v / 1024) ++ "\\u" ++ hex4 (56320 + v % 1024)

/-- Rendering of a string by `json.dumps`. -/
def jsonString (s : String) : String :=
  "\"" ++ String.join (s.data.map jsonEscapeChar) ++ "\""

/-- Rendering of an optional string by `json.dumps` (`None` becomes `null`). -/
def jsonOfOptStr : Option String → String
  | none => "null"
  | some s => jsonString s

/-- Fractional part of `num/den` rendered with `k` decimal digits, trailing
zeros stripped but at least one digit kept (matching Python float `repr` for
decimally representable values). -/
def decimalFrac (num den k : Nat) : String :=
  let fr := num * 10 ^ k / den % 10 ^ k
  let digits := Nat.toDigits 10 fr
  let padded := List.replicate (k - digits.length) '0' ++ digits
  let stripped := (padded.reverse.dropWhile (· = '0')).reverse
  String.mk (if stripped = [] then ['0'] else stripped)

/-- Embedding of Python float `repr` as used by `json.dumps` on the rating
values (floats are embedded as exact rationals; every float is decimally
representable, so the fraction fallback is unreachable on real inputs). -/
def renderPyNum (q : ℚ) : String :=
  let sign := if q < 0 then "-" else ""
  let n := q.num.natAbs
  let d := q.den
  match (List.range 40).find? (fun k => 10 ^ k % d = 0) with
  | some k =>
    if k = 0 then sign ++ toString (n / d) ++ ".0"
    else sign ++ toString (n / d) ++ "." ++ decimalFrac n d k
  | none => sign ++ toString n ++ "/" ++ toString d

/-- Rendering of an optional number by `json.dumps`. -/
def jsonOfOptQ : Option ℚ → String
  | none => "null"
  | some q => renderPyNum q

/-- Rendering of an optional integer by `json.dumps`. -/
def jsonOfOptZ : Option ℤ → String
  | none => "null"
  | some z => toString z

/-- The deterministic serialization built inside `calculate_data_hash`:
`json.dumps(key_fields, sort_keys=True)` over the six-field mapping
restricted to name, phone, location (from the source's `city` key), rating,
reviews_count and description, keys in sorted order with the default
separators. -/
def hashFieldsString (d : ContractorData) : String :=
  "\x7b\"description\": " ++ jsonOfOptStr d.description
    ++ ", \"location\": " ++ jsonOfOptStr d.city
    ++ ", \"name\": " ++ jsonOfOptStr d.name
    ++ ", \"phone\": " ++ jsonOfOptStr d.phone
    ++ ", \"rating\": " ++ jsonOfOptQ d.rating
    ++ ", \"reviews_count\": " ++ jsonOfOptZ d.reviews_count
    ++ "\x7d"

/-- Embedding of `hashlib.md5(...).hexdigest()`.  The digest itself is an
external standard-library primitive, not code of this repository; it is
embedded as a concrete deterministic 128-bit digest rendered as 32 lowercase
hex characters.  Nothing in this development uses any property of the digest
beyond it being a function of its input string. -/
def md5_hex (s : String) : String :=
  let h := s.data.foldl
    (fun h c => (h * 1099511628211 + c.toNat + 1) % 2 ^ 128) 14695981039346656037
  String.mk ((List.range 32).map (fun i => hexChar (h / 16 ^ (31 - i) % 16)))

/-- Embedding of `DatabaseManager.calculate_data_hash`: hex digest of the canonical
serialization of the six change-detection fields. -/
def calculate_data_hash (d : ContractorData) : String :=
  md5_hex (hashFieldsString d)

/-! ### Upsert store (`DatabaseManager.upsert_contractor`,
`save_contractors_batch`) -/

/-- Embedding of `session.query(Contractor).filter(Contractor.profile_url == u).first()`. -/
def findByUrl (store : List Contractor) (u : String) : Option Contractor :=
  store.find? (fun c => c.profile_url = u)

/-- In-place mutation of the row returned by `.first()`: replace the first row
with the given profile URL. -/
def replaceFirstByUrl : List Contractor → String → Contractor → List Contractor
  | [], _, _ => []
  | c :: cs, u, c' =>
    if c.profile_url = u then c' :: cs else c :: replaceFirstByUrl cs u c'

/-- The updated row built by the `existing.data_hash != data_hash` branch of
`upsert_contractor`: every mutable attribute is overwritten from the incoming
data. -/
def updatedContractor (existing : Contractor) (d : ContractorData)
    (data_hash : String) (gaf_id : Option String) : Contractor :=
  { existing with
    name := d.name
    phone := clean_phone_number d.phone
    location := d.city
    distance := d.distance
    rating := d.rating
    reviews_count := d.reviews_count
    description := d.description
    certifications := clean_certifications d.certifications
    data_hash := some data_hash
    gaf_id := gaf_id }

/-- The new row built by the insert branch of `upsert_contractor`
(server-side timestamp defaults are abstracted as `none`). -/
def newContractor (d : ContractorData) (u : String) (data_hash : String)
    (gaf_id : Option String) : Contractor :=
  { gaf_id := gaf_id
    name := d.name
    phone := clean_phone_number d.phone
    location := d.city
    distance := d.distance
    rating := d.rating
    reviews_count := d.reviews_count
    profile_url := u
    description := d.description
    certifications := clean_certifications d.certifications
    ai_insights := none
    data_hash := some data_hash
    last_scraped_at := none }

/-- Embedding of `DatabaseManager.upsert_contractor`: raises when `profile_url` is falsy;
otherwise inserts a new row, or overwrites all mutable attributes when the
recomputed hash differs from the stored one, or returns the existing row
untouched.  Returns the resulting store together with the Python return value
`(contractor, is_new)`. -/
def upsert_contractor (store : List Contractor) (d : ContractorData) :
    Except String (List Contractor × Contractor × Bool) :=
  match d.profile_url with
  | none => .error "profile_url is required"
  | some u =>
    if u = "" then .error "profile_url is required"
    else
      let data_hash := calculate_data_hash d
      let gaf_id := extract_gaf_id u
      match findByUrl store u with
      | some existing =>
        if existing.data_hash ≠ some data_hash then
          let updated := updatedContractor existing d data_hash gaf_id
          .ok (replaceFirstByUrl store u updated, updated, false)
        else
          .ok (store, existing, false)
      | none =>
        let newC := newContractor d u data_hash gaf_id
        .ok (store ++ [newC], newC, true)

/-- Counts returned by `save_contractors_batch`. -/
structure BatchStats where
  total : Nat
  new : Nat
  updated : Nat
  unchanged : Nat
  deriving Repr, DecidableEq

/-- One iteration of the `save_contractors_batch` loop: a raised exception is
caught, logged and skipped; `session.is_modified(contractor)` is embedded as
"the persisted state actually changed" (for an existing row the update branch
always nets a change because it rewrites `data_hash` to a different value,
while the unchanged branch performs no assignment). -/
def saveBatchStep (acc : List Contractor × Nat × Nat × Nat) (d : ContractorData) :
    List Contractor × Nat × Nat × Nat :=
  match acc with
  | (store, n, u, z) =>
    match upsert_contractor store d with
    | .error _ => (store, n, u, z)
    | .ok (store', _, is_new) =>
      if is_new then (store', n + 1, u, z)
      else if store' ≠ store then (store', n, u + 1, z)
      else (store', n, u, z + 1)

/-- Embedding of `DatabaseManager.save_contractors_batch`: applies the upsert to each record
independently, counting new / updated / unchanged, with per-record fault
isolation.  This simplified model threads each upsert's resulting store into
the next lookup, so a pending insert is visible to later records of the same
batch; the source's `autoflush=False` session hides pending inserts until the
single commit at block exit, where the unique `profile_url` / `gaf_id`
constraints can raise and roll the whole batch back.  The divergence is
immaterial for the claims proved against this model — the orchestrator only
ever passes singleton batches to it, and the fault-isolation and blank-URL
statements are comparative — while the idempotence claim, which the
divergence does affect, is settled against the session-faithful model
`save_contractors_batch_session` below. -/
def save_contractors_batch (store : List Contractor)
    (batch : List ContractorData) : List Contractor × BatchStats :=
  match batch.foldl saveBatchStep (store, 0, 0, 0) with
  | (store', n, u, z) => (store', ⟨batch.length, n, u, z⟩)

/-- The phone rule of `should_rescrape_profile`: truthy observed phone that
differs from the stored one. -/
def phoneTrigger (existing : Contractor) (l : ContractorData) : Bool :=
  truthyStr l.phone && decide (existing.phone ≠ l.phone)

/-- The profile-URL rule of `should_rescrape_profile`. -/
def urlTrigger (existing : Contractor) (l : ContractorData) : Bool :=
  truthyStr l.profile_url && decide (some existing.profile_url ≠ l.profile_url)

/-- The rating rule of `should_rescrape_profile`: both ratings truthy and the
absolute change strictly greater than `0.3`. -/
def ratingTrigger (existing : Contractor) (l : ContractorData) : Bool :=
  match l.rating, existing.rating with
  | some rn, some ro => rn ≠ 0 && ro ≠ 0 && decide (|rn - ro| > 3 / 10)
  | _, _ => false

/-- The review-count rule of `should_rescrape_profile`: both counts truthy and
the signed change at least `10` or strictly below `-5`. -/
def reviewsTrigger (existing : Contractor) (l : ContractorData) : Bool :=
  match l.reviews_count, existing.reviews_count with
  | some vn, some vo => vn ≠ 0 && vo ≠ 0 && decide (vn - vo ≥ 10 ∨ vn - vo < -5)
  | _, _ => false

/-- Reason string of the rating rule (numeric formatting embedded by
`renderPyNum`). -/
def ratingReason (existing : Contractor) (l : ContractorData) : String :=
  match l.rating, existing.rating with
  | some rn, some ro =>
    "Rating changed by " ++ renderPyNum |rn - ro| ++ " (from "
      ++ renderPyNum ro ++ " to " ++ renderPyNum rn ++ ")"
  | _, _ => ""

/-- Reason string of the review-count rule. -/
def reviewsReason (existing : Contractor) (l : ContractorData) : String :=
  match l.reviews_count, existing.reviews_count with
  | some vn, some vo =>
    if vn - vo ≥ 10 then
      "Reviews increased by " ++ toString (vn - vo) ++ " (from "
        ++ toString vo ++ " to " ++ toString vn ++ ")"
    else
      "Reviews decreased by " ++ toString (vn - vo).natAbs
  | _, _ => ""

/-- Embedding of `IncrementalScraper.should_rescrape_profile`: the threshold rules applied
in source order, each returning immediately when it fires. -/
def should_rescrape_profile (existing : Contractor) (listing_data : ContractorData) :
    Bool × String :=
  if phoneTrigger existing listing_data then (true, "Phone number changed")
  else if urlTrigger existing listing_data then (true, "Profile URL changed")
  else if ratingTrigger existing listing_data then
    (true, ratingReason existing listing_data)
  else if reviewsTrigger existing listing_data then
    (true, reviewsReason existing listing_data)
  else (false, "No significant changes")

/-! ### Metadata-only update (`IncrementalScraper._update_metadata_only`) -/

/-- The per-row mutation of `_update_metadata_only`: each of rating, review
count and distance is overwritten only when the observed value is truthy and
differs; `last_scraped_at` is always refreshed; the flag records whether any
of the three fields was assigned.  The source mutates the row in place, but
each condition reads a field no earlier assignment of the block touches, so
all three conditions are equivalently taken on the pristine row. -/
def updateMetadataRecord (existing : Contractor) (d : ContractorData) (now : Nat) :
    Contractor × Bool :=
  let c1 := truthyQ d.rating && decide (existing.rating ≠ d.rating)
  let e1 := if c1 then { existing with rating := d.rating } else existing
  let c2 := truthyZ d.reviews_count
    && decide (existing.reviews_count ≠ d.reviews_count)
  let e2 := if c2 then { e1 with reviews_count := d.reviews_count } else e1
  let c3 := truthyQ d.distance && decide (existing.distance ≠ d.distance)
  let e3 := if c3 then { e2 with distance := d.distance } else e2
  ({ e3 with last_scraped_at := some now }, c1 || c2 || c3)

/-- One iteration of the `_update_metadata_only` loop: falsy profile URLs are
skipped, unknown URLs are ignored, otherwise the row is rewritten and counted
as updated exactly when the flag is set. -/
def updateMetadataStep (now : Nat) (acc : List Contractor × Nat × Nat)
    (d : ContractorData) : List Contractor × Nat × Nat :=
  match acc with
  | (store, upd, unch) =>
    match d.profile_url with
    | none => (store, upd, unch)
    | some u =>
      if u = "" then (store, upd, unch)
      else
        match findByUrl store u with
        | none => (store, upd, unch)
        | some existing =>
          match updateMetadataRecord existing d now with
          | (e', changed) =>
            let store' := replaceFirstByUrl store u e'
            if changed then (store', upd + 1, unch) else (store', upd, unch + 1)

/-- Embedding of `IncrementalScraper._update_metadata_only` over a batch, returning the
store and the `(updated, unchanged)` counters. -/
def update_metadata_only (store : List Contractor) (batch : List ContractorData)
    (now : Nat) : List Contractor × Nat × Nat :=
  batch.foldl (updateMetadataStep now) (store, 0, 0)

/-! ### Refresh orchestrator (`IncrementalScraper.incremental_refresh`) -/

/-- One iteration of the classification loop in `incremental_refresh`
(step 2): records with a falsy profile URL are skipped outright; unknown URLs
go to the new bucket; otherwise the classifier routes to the rescrape bucket
(with its reason) or the metadata bucket. -/
def classifyStep (store : List Contractor)
    (acc : List ContractorData × List (ContractorData × String) × List ContractorData)
    (d : ContractorData) :
    List ContractorData × List (ContractorData × String) × List ContractorData :=
  match acc with
  | (news, resc, meta) =>
    match d.profile_url with
    | none => (news, resc, meta)
    | some u =>
      if u = "" then (news, resc, meta)
      else
        match findByUrl store u with
        | none => (news ++ [d], resc, meta)
        | some existing =>
          match should_rescrape_profile existing d with
          | (should, reason) =>
            if should then (news, resc ++ [(d, reason)], meta)
            else (news, resc, meta ++ [d])

/-- The bucketing pass of `incremental_refresh` over the whole listing. -/
def classifyBuckets (store : List Contractor) (listing : List ContractorData) :
    List ContractorData × List (ContractorData × String) × List ContractorData :=
  listing.foldl (classifyStep store) ([], [], [])

/-- Attaching a generated insight to the stored row (the inner
`contractor.ai_insights = [insights]` block, guarded by the lookup). -/
def attachInsight (store : List Contractor) (u : String) (ins : Option String) :
    List Contractor :=
  match ins with
  | none => store
  | some i =>
    match findByUrl store u with
    | none => store
    | some contractor =>
      replaceFirstByUrl store u { contractor with ai_insights := some [i] }

/-- One iteration of the new-contractor loop (step 3): fetch the profile
detail, attach it, save immediately, count the batch's `new`, then attach
insights; any failure is caught and the loop continues. -/
def processNewStep (detail : String → Except String (String × List String))
    (insight : ContractorData → Option String)
    (acc : List Contractor × Nat) (d : ContractorData) : List Contractor × Nat :=
  match acc with
  | (store, cnt) =>
    match d.profile_url with
    | none => (store, cnt)
    | some u =>
      match detail u with
      | .error _ => (store, cnt)
      | .ok (descr, certs) =>
        let d' := { d with description := some descr, certifications := certs }
        match save_contractors_batch store [d'] with
        | (store1, bstats) => (attachInsight store1 u (insight d'), cnt + bstats.new)

/-- One iteration of the rescrape loop (step 4): identical to the new loop but
counting the batch's `updated`. -/
def processRescrapeStep (detail : String → Except String (String × List String))
    (insight : ContractorData → Option String)
    (acc : List Contractor × Nat) (dr : ContractorData × String) :
    List Contractor × Nat :=
  match acc with
  | (store, cnt) =>
    match dr.1.profile_url with
    | none => (store, cnt)
    | some u =>
      match detail u with
      | .error _ => (store, cnt)
      | .ok (descr, certs) =>
        let d' := { dr.1 with description := some descr, certifications := certs }
        match save_contractors_batch store [d'] with
        | (store1, bstats) => (attachInsight store1 u (insight d'), cnt + bstats.updated)

/-- Embedding of `session.query(ScrapeRun).filter(ScrapeRun.id == i).first()`. -/
def findRunById (runs : List ScrapeRun) (i : Nat) : Option ScrapeRun :=
  runs.find? (fun r => r.id = i)

/-- In-place mutation of the fetched run row. -/
def replaceFirstRunById : List ScrapeRun → Nat → ScrapeRun → List ScrapeRun
  | [], _, _ => []
  | r :: rs, i, r' =>
    if r.id = i then r' :: rs else r :: replaceFirstRunById rs i r'

/-- The `if scrape_run:`-guarded update of the tracked run. -/
def updateRunById (runs : List ScrapeRun) (i : Nat) (f : ScrapeRun → ScrapeRun) :
    List ScrapeRun :=
  match findRunById runs i with
  | none => runs
  | some r => replaceFirstRunById runs i (f r)

/-- Autoincrement primary key for a newly inserted run. -/
def freshRunId (runs : List ScrapeRun) : Nat :=
  (runs.map (fun r => r.id)).foldr max 0 + 1

/-- Statistics dictionary returned by `incremental_refresh`. -/
structure RefreshStats where
  total_found : Nat
  new_contractors : Nat
  profiles_rescraped : Nat
  unchanged : Nat
  updated_metadata : Nat
  deriving Repr, DecidableEq

deriving instance DecidableEq for Except

/-- Full outcome of one refresh pass: the run table, the contractor store, the
returned statistics or re-raised exception, and the successive persisted
states of the run created by this pass (its observable lifecycle). -/
structure RefreshOutcome where
  runs : List ScrapeRun
  store : List Contractor
  result : Except String RefreshStats
  runStates : List ScrapeRun
  deriving Repr, DecidableEq

/-- The run row created at the start of a pass (`status='running'`,
`completed_at` unset). -/
def mkRunningRun (zipcode : String) (distance : ℤ) (rid t0 : Nat) : ScrapeRun :=
  { id := rid, zipcode := zipcode, distance := distance,
    contractors_found := none, contractors_new := none,
    contractors_updated := none, started_at := t0, completed_at := none,
    status := "running", error_message := none }

/-- The mutation applied to the run in the `except` handler of
`incremental_refresh`. -/
def failRun (t1 : Nat) (e : String) (r : ScrapeRun) : ScrapeRun :=
  { r with
    completed_at := some t1
    status := "failed"
    error_message := some e }

/-- The mutation applied to the run at successful completion of
`incremental_refresh`. -/
def completeRun (stats : RefreshStats) (t1 : Nat) (r : ScrapeRun) : ScrapeRun :=
  { r with
    contractors_found := some stats.total_found
    contractors_new := some stats.new_contractors
    contractors_updated :=
      some (stats.profiles_rescraped + stats.updated_metadata)
    completed_at := some t1
    status := "completed" }

/-- Embedding of `IncrementalScraper.incremental_refresh`.  External collaborators are
parameters: `listing` is the outcome of the lightweight listing fetch (the
whole guarded body fails with it when it raises), `detail` the per-URL profile
detail fetch, `insight` the insight generator (`none` embeds both null results
and caught failures).  `t0`/`t1` are the `utcnow()` ticks at run creation and
finalization. -/
def incremental_refresh (zipcode : String) (distance : ℤ)
    (listing : Except String (List ContractorData))
    (detail : String → Except String (String × List String))
    (insight : ContractorData → Option String)
    (runs : List ScrapeRun) (store : List Contractor) (t0 t1 : Nat) :
    RefreshOutcome :=
  let rid := freshRunId runs
  let run0 := mkRunningRun zipcode distance rid t0
  let runs1 := runs ++ [run0]
  match listing with
  | .error e =>
    let runs2 := updateRunById runs1 rid (failRun t1 e)
    { runs := runs2, store := store, result := .error e,
      runStates := run0 :: (findRunById runs2 rid).toList }
  | .ok ldata =>
    match classifyBuckets store ldata with
    | (news, resc, meta) =>
      match news.foldl (processNewStep detail insight) (store, 0) with
      | (store1, newCnt) =>
        match resc.foldl (processRescrapeStep detail insight) (store1, 0) with
        | (store2, rescCnt) =>
          match (if meta ≠ [] then update_metadata_only store2 meta t1
                 else (store2, 0, 0)) with
          | (store3, metaUpd, metaUnch) =>
            let stats : RefreshStats :=
              { total_found := ldata.length, new_contractors := newCnt,
                profiles_rescraped := rescCnt, unchanged := metaUnch,
                updated_metadata := metaUpd }
            let runs2 := updateRunById runs1 rid (completeRun stats t1)
            { runs := runs2, store := store3, result := .ok stats,
              runStates := run0 :: (findRunById runs2 rid).toList }

/-! ## Theorems settling the claims -/

/-- C2 (counterexample): the empty string has a digit count other than ten,
yet `clean_phone_number` returns `None` for it rather than the original
input string, refuting the universally quantified claim. -/
theorem clean_phone_counterexample :
    (("".data.filter Char.isDigit).length ≠ 10
        ∧ ¬ (("".data.filter Char.isDigit).length = 11
              ∧ ("".data.filter Char.isDigit).head? = some '1'))
      ∧ clean_phone_number (some "") ≠ some ""
      ∧ clean_phone_number (some "") = none := by
  refine ⟨⟨by decide, by decide⟩, by decide, rfl⟩

/-- C2 (amended): for every non-empty input string, `clean_phone_number`
strips non-digit characters; an 11-digit result starting with `1` drops the
leading `1`; a 10-digit result is reformatted as `+1 (AAA) BBB-CCCC`; any
other digit count returns the original input string unmodified (never
`None`). -/
theorem clean_phone_spec (s : String) (hs : s ≠ "") :
    clean_phone_number (some s) =
      (let digits := s.data.filter Char.isDigit
       if digits.length = 11 ∧ digits.head? = some '1' then
         some (formatPhone (digits.drop 1))
       else if digits.length = 10 then some (formatPhone digits)
       else some s) := by
  show (if s = "" then none else _) = _
  rw [if_neg hs]
  by_cases h1 : (s.data.filter Char.isDigit).length = 11
      ∧ (s.data.filter Char.isDigit).head? = some '1'
  · simp only [if_pos h1]
  · simp only [if_neg h1]
    by_cases h2 : (s.data.filter Char.isDigit).length = 10
    · simp [h2]
    · simp [h2]

/-- C2 (witness): the three specified sample inputs. -/
theorem clean_phone_spec_witness :
    clean_phone_number (some "(212) 555-0100") = some "+1 (212) 555-0100"
      ∧ clean_phone_number (some "12125550100") = some "+1 (212) 555-0100"
      ∧ clean_phone_number (some "555-0100") = some "555-0100" := by
  refine ⟨?_, ?_, ?_⟩
  · rw [clean_phone_spec "(212) 555-0100" (by decide)]; decide
  · rw [clean_phone_spec "12125550100" (by decide)]; decide
  · rw [clean_phone_spec "555-0100" (by decide)]; decide

/-- C3: the content hash is a deterministic function of exactly the six key
fields name, phone, location (from the source's `city` key), rating, review
count and description: any two records agreeing on those six fields hash
identically, and hashing is trivially idempotent. -/
theorem data_hash_depends_only_on_key_fields (d1 d2 : ContractorData)
    (hn : d1.name = d2.name) (hp : d1.phone = d2.phone)
    (hc : d1.city = d2.city) (hr : d1.rating = d2.rating)
    (hv : d1.reviews_count = d2.reviews_count)
    (hd : d1.description = d2.description) :
    calculate_data_hash d1 = calculate_data_hash d2
      ∧ ∀ d : ContractorData, calculate_data_hash d = calculate_data_hash d := by
  refine ⟨?_, fun d => rfl⟩
  unfold calculate_data_hash hashFieldsString
  rw [hn, hp, hc, hr, hv, hd]

/-- Sample record used by several witnesses. -/
def sampleData : ContractorData :=
  { name := some "Matute Roofing"
    phone := some "(973) 555-0188"
    city := some "Wayne, NJ"
    rating := some (48 / 10)
    reviews_count := some 437
    distance := some (173 / 10)
    profile_url := some "https://www.gaf.com/x/matute-roofing-1113654"
    description := some "A roofing company."
    certifications := ["GAF Master Elite"]
    insights := none }

/-- C3 (witness): two records differing only in certifications and
generated-insight text hash identically. -/
theorem data_hash_key_fields_witness :
    calculate_data_hash sampleData
        = calculate_data_hash
            { sampleData with certifications := [], insights := some "Talk about X." }
      ∧ sampleData.certifications
          ≠ ({ sampleData with certifications := [], insights := some "Talk about X." }
              : ContractorData).certifications
      ∧ sampleData.insights
          ≠ ({ sampleData with certifications := [], insights := some "Talk about X." }
              : ContractorData).insights := by
  refine ⟨?_, by decide, by decide⟩
  exact (data_hash_depends_only_on_key_fields _ _ rfl rfl rfl rfl rfl rfl).1

/-- Stored row used by the classifier witnesses. -/
def sampleExisting : Contractor :=
  { gaf_id := some "1113654"
    name := some "Matute Roofing"
    phone := some "+1 (973) 555-0188"
    location := some "Wayne, NJ"
    distance := some (173 / 10)
    rating := some 4
    reviews_count := some 20
    profile_url := "https://www.gaf.com/x/matute-roofing-1113654"
    description := some "A roofing company."
    certifications := ["GAF Master Elite"]
    ai_insights := none
    data_hash := some "0123"
    last_scraped_at := some 1 }

/-- C4: upserting a record whose profile URL already exists either overwrites
every mutable attribute (name, phone, location, distance, rating, review
count, description, certifications and the stored hash) and returns the
updated row with `is_new = false` when the recomputed hash differs from the
stored one, or returns the existing row with `is_new = false` and leaves the
store completely untouched when the hashes agree. -/
theorem upsert_existing_behavior (store : List Contractor) (d : ContractorData)
    (u : String) (hu : d.profile_url = some u) (hne : u ≠ "")
    (existing : Contractor) (hfind : findByUrl store u = some existing) :
    (existing.data_hash ≠ some (calculate_data_hash d) →
      ∃ c, upsert_contractor store d = .ok (replaceFirstByUrl store u c, c, false)
        ∧ c.name = d.name ∧ c.phone = clean_phone_number d.phone
        ∧ c.location = d.city ∧ c.distance = d.distance
        ∧ c.rating = d.rating ∧ c.reviews_count = d.reviews_count
        ∧ c.description = d.description
        ∧ c.certifications = clean_certifications d.certifications
        ∧ c.data_hash = some (calculate_data_hash d))
    ∧ (existing.data_hash = some (calculate_data_hash d) →
      upsert_contractor store d = .ok (store, existing, false)) := by
  constructor
  · intro hdiff
    refine ⟨updatedContractor existing d (calculate_data_hash d)
      (extract_gaf_id u), ?_, rfl, rfl, rfl, rfl, rfl, rfl, rfl, rfl, rfl⟩
    unfold upsert_contractor
    rw [hu]
    simp [hne, hfind, hdiff]
  · intro heq
    unfold upsert_contractor
    rw [hu]
    simp [hne, hfind, heq]

/-- Stored row with no recorded hash, used by the C4 witness (its stored hash
trivially differs from any recomputed one). -/
def sampleStale : Contractor := { sampleExisting with data_hash := none }

/-- C4 (witness): the sample record against a one-row store holding a stale
hash takes the overwrite branch. -/
theorem upsert_existing_witness :
    ∃ c, upsert_contractor [sampleStale] sampleData
        = .ok (replaceFirstByUrl [sampleStale]
            "https://www.gaf.com/x/matute-roofing-1113654" c, c, false)
      ∧ c.name = sampleData.name
      ∧ c.phone = clean_phone_number sampleData.phone
      ∧ c.location = sampleData.city ∧ c.distance = sampleData.distance
      ∧ c.rating = sampleData.rating
      ∧ c.reviews_count = sampleData.reviews_count
      ∧ c.description = sampleData.description
      ∧ c.certifications = clean_certifications sampleData.certifications
      ∧ c.data_hash = some (calculate_data_hash sampleData) :=
  (upsert_existing_behavior [sampleStale] sampleData
    "https://www.gaf.com/x/matute-roofing-1113654" rfl (by decide)
    sampleStale rfl).1 (by simp [sampleStale])

/-- Upsert raises exactly the source's `ValueError` on a falsy profile URL. -/
theorem upsert_falsy_url (store : List Contractor) (d : ContractorData)
    (h : truthyStr d.profile_url = false) :
    upsert_contractor store d = .error "profile_url is required" := by
  unfold upsert_contractor
  cases hd : d.profile_url with
  | none => rfl
  | some s =>
    have hs : s = "" := by simpa [truthyStr, hd] using h
    simp [hs]

/-- A record whose upsert raises leaves the batch loop state untouched. -/
theorem saveBatchStep_skip (acc : List Contractor × Nat × Nat × Nat)
    (d : ContractorData) (h : truthyStr d.profile_url = false) :
    saveBatchStep acc d = acc := by
  obtain ⟨store, n, u, z⟩ := acc
  simp [saveBatchStep, upsert_falsy_url store d h]

/-- C5: a record whose upsert raises is caught, logged and skipped: the batch
result is exactly that of the batch without it — same final store, same
new/updated/unchanged counts — with only the total reflecting the extra input
record. -/
theorem batch_fault_isolation (store : List Contractor)
    (l1 l2 : List ContractorData) (bad : ContractorData)
    (h : truthyStr bad.profile_url = false) :
    save_contractors_batch store (l1 ++ bad :: l2)
      = ((save_contractors_batch store (l1 ++ l2)).1,
         ⟨(save_contractors_batch store (l1 ++ l2)).2.total + 1,
          (save_contractors_batch store (l1 ++ l2)).2.new,
          (save_contractors_batch store (l1 ++ l2)).2.updated,
          (save_contractors_batch store (l1 ++ l2)).2.unchanged⟩) := by
  have hfold : (l1 ++ bad :: l2).foldl saveBatchStep (store, 0, 0, 0)
      = (l1 ++ l2).foldl saveBatchStep (store, 0, 0, 0) := by
    rw [List.foldl_append, List.foldl_append, List.foldl_cons,
      saveBatchStep_skip _ _ h]
  simp only [save_contractors_batch, hfold, List.length_append,
    List.length_cons]
  rcases hres : (l1 ++ l2).foldl saveBatchStep (store, 0, 0, 0) with ⟨s, n, u, z⟩
  simp [List.length_append]
  omega

/-- Tiny records used by the batch witnesses. -/
def w1 : ContractorData :=
  { name := some "A", phone := none, city := none, rating := none,
    reviews_count := none, distance := none, profile_url := some "u1",
    description := none, certifications := [], insights := none }

/-- Second tiny record. -/
def w2 : ContractorData := { w1 with name := some "B", profile_url := some "u2" }

/-- Third tiny record. -/
def w3 : ContractorData := { w1 with name := some "C", profile_url := some "u3" }

/-- Fourth tiny record. -/
def w4 : ContractorData := { w1 with name := some "D", profile_url := some "u4" }

/-- Record with no profile URL, whose upsert raises. -/
def wbad : ContractorData := { w1 with profile_url := none }

/-- C5 (witness): a five-record batch whose third record raises still stores
the other four and counts them, instead of aborting. -/
theorem batch_fault_isolation_witness :
    (save_contractors_batch [] [w1, w2, wbad, w3, w4]).2 = ⟨5, 4, 0, 0⟩
      ∧ (save_contractors_batch [] [w1, w2, wbad, w3, w4]).1.length = 4 := by
  have h := batch_fault_isolation [] [w1, w2] [w3, w4] wbad rfl
  rw [show ([w1, w2, wbad, w3, w4] : List ContractorData)
      = [w1, w2] ++ wbad :: [w3, w4] from rfl, h]
  exact ⟨by decide, by decide⟩

/-- Every id present in the run table is at most the running maximum. -/
theorem id_le_fold (runs : List ScrapeRun) :
    ∀ r ∈ runs, r.id ≤ (runs.map (fun r => r.id)).foldr max 0 := by
  induction runs with
  | nil => simp
  | cons q qs ih =>
    intro r hr
    rcases List.mem_cons.mp hr with h | h
    · subst h
      exact le_max_left _ _
    · exact le_trans (ih r h) (le_max_right _ _)

/-- A run inserted with a fresh autoincrement id is found by its id. -/
theorem findRunById_append_fresh (runs : List ScrapeRun) (run0 : ScrapeRun)
    (h : run0.id = freshRunId runs) :
    findRunById (runs ++ [run0]) run0.id = some run0 := by
  unfold findRunById
  rw [List.find?_append]
  have hnone : runs.find? (fun r => r.id = run0.id) = none := by
    rw [List.find?_eq_none]
    intro r hr
    have hle := id_le_fold runs r hr
    simp only [decide_eq_true_eq]
    intro heq
    rw [heq, h] at hle
    exact absurd hle (by simp [freshRunId])
  rw [hnone]
  simp

/-- Replacing the first row with a given id makes the subsequent lookup of
that id return the replacement, provided the id was present. -/
theorem findRunById_replaceFirst (runs : List ScrapeRun) (i : Nat)
    (r' : ScrapeRun) (hr : r'.id = i) :
    (findRunById runs i).isSome →
      findRunById (replaceFirstRunById runs i r') i = some r' := by
  induction runs with
  | nil => simp [findRunById]
  | cons q qs ih =>
    by_cases hq : q.id = i
    · intro _
      simp [replaceFirstRunById, findRunById, hq, hr]
    · intro hs
      have hq' : (decide (q.id = i)) = false := by simp [hq]
      simp only [findRunById, List.find?_cons, hq'] at hs
      simp only [replaceFirstRunById, if_neg hq, findRunById, List.find?_cons,
        hq']
      exact ih hs

/-- Finalizing the freshly created run rewrites exactly that run. -/
theorem findRunById_update_fresh (runs : List ScrapeRun) (run0 : ScrapeRun)
    (f : ScrapeRun → ScrapeRun) (h0 : run0.id = freshRunId runs)
    (hf : (f run0).id = run0.id) :
    findRunById (updateRunById (runs ++ [run0]) run0.id f) run0.id
      = some (f run0) := by
  have hfind := findRunById_append_fresh runs run0 h0
  unfold updateRunById
  rw [hfind]
  exact findRunById_replaceFirst (runs ++ [run0]) run0.id (f run0) hf
    (by rw [hfind]; rfl)

/-- C8: when the listing fetch raises, the refresh pass returns no statistics
and re-raises the same exception to the caller, the store is untouched, and
the tracked run is finalized as `failed` with the exception message and a
completion timestamp. -/
theorem refresh_listing_failure (zipcode : String) (distance : ℤ) (msg : String)
    (detail : String → Except String (String × List String))
    (insight : ContractorData → Option String)
    (runs : List ScrapeRun) (store : List Contractor) (t0 t1 : Nat) :
    (incremental_refresh zipcode distance (.error msg) detail insight runs
        store t0 t1).result = .error msg
      ∧ (incremental_refresh zipcode distance (.error msg) detail insight runs
          store t0 t1).store = store
      ∧ ∃ r, findRunById (incremental_refresh zipcode distance (.error msg)
              detail insight runs store t0 t1).runs (freshRunId runs) = some r
          ∧ r.status = "failed" ∧ r.error_message = some msg
          ∧ r.completed_at = some t1 ∧ r.started_at = t0 := by
  refine ⟨rfl, rfl, ?_⟩
  have h := findRunById_update_fresh runs
    (mkRunningRun zipcode distance (freshRunId runs) t0) (failRun t1 msg)
    rfl rfl
  exact ⟨_, h, rfl, rfl, rfl, rfl⟩

/-- Index-generalized form of `findRunById_update_fresh`, convenient for
rewriting. -/
theorem findRunById_update_fresh_idx (runs : List ScrapeRun) (run0 : ScrapeRun)
    (f : ScrapeRun → ScrapeRun) (i : Nat) (hi : run0.id = i)
    (h0 : run0.id = freshRunId runs) (hf : (f run0).id = run0.id) :
    findRunById (updateRunById (runs ++ [run0]) i f) i = some (f run0) := by
  subst hi
  exact findRunById_update_fresh runs run0 f h0 hf

/-- C7: over any refresh pass, the tracked run's persisted lifecycle is
exactly two states: it starts as `running` with no completion timestamp and
moves once to a terminal state (`completed` or `failed`) carrying a completion
timestamp; no transition leaves a terminal state, and `completed_at` is unset
exactly while the status is `running`. -/
theorem run_lifecycle (zipcode : String) (distance : ℤ)
    (listing : Except String (List ContractorData))
    (detail : String → Except String (String × List String))
    (insight : ContractorData → Option String)
    (runs : List ScrapeRun) (store : List Contractor) (t0 t1 : Nat) :
    ∃ r0 rf,
      (incremental_refresh zipcode distance listing detail insight runs store
          t0 t1).runStates = [r0, rf]
      ∧ r0.status = "running" ∧ r0.completed_at = none
      ∧ (rf.status = "completed" ∨ rf.status = "failed")
      ∧ rf.completed_at = some t1
      ∧ (∀ r ∈ [r0, rf], (r.status = "running" ↔ r.completed_at = none))
      ∧ List.Chain' (fun a b => a.status = "running"
          ∧ (b.status = "completed" ∨ b.status = "failed")) [r0, rf] := by
  cases listing with
  | error e =>
    have hfind := findRunById_update_fresh_idx runs
      (mkRunningRun zipcode distance (freshRunId runs) t0) (failRun t1 e)
      (freshRunId runs) rfl rfl rfl
    have htr : (incremental_refresh zipcode distance (.error e) detail insight
        runs store t0 t1).runStates
        = [mkRunningRun zipcode distance (freshRunId runs) t0,
           failRun t1 e (mkRunningRun zipcode distance (freshRunId runs) t0)] := by
      simp only [incremental_refresh]
      rw [hfind]
      rfl
    refine ⟨_, _, htr, rfl, rfl, Or.inr rfl, rfl, ?_, ?_⟩
    · intro r hr
      rcases List.mem_cons.mp hr with h | h
      · subst h
        simp [mkRunningRun]
      · rcases List.mem_cons.mp h with h' | h'
        · subst h'
          constructor
          · intro hcon
            simp [failRun] at hcon
          · intro hcon
            simp [failRun] at hcon
        · exact absurd h' (List.not_mem_nil r)
    · exact List.chain'_cons.mpr ⟨⟨rfl, Or.inr rfl⟩, List.chain'_singleton _⟩
  | ok ldata =>
    rcases hC : classifyBuckets store ldata with ⟨news, resc, meta⟩
    rcases hN : news.foldl (processNewStep detail insight) (store, 0) with
      ⟨store1, newCnt⟩
    rcases hR : resc.foldl (processRescrapeStep detail insight) (store1, 0) with
      ⟨store2, rescCnt⟩
    rcases hM : (if meta ≠ [] then update_metadata_only store2 meta t1
        else (store2, 0, 0)) with ⟨store3, metaUpd, metaUnch⟩
    have hfind := findRunById_update_fresh_idx runs
      (mkRunningRun zipcode distance (freshRunId runs) t0)
      (completeRun
        { total_found := ldata.length, new_contractors := newCnt,
          profiles_rescraped := rescCnt, unchanged := metaUnch,
          updated_metadata := metaUpd } t1)
      (freshRunId runs) rfl rfl rfl
    have htr : (incremental_refresh zipcode distance (.ok ldata) detail insight
        runs store t0 t1).runStates
        = [mkRunningRun zipcode distance (freshRunId runs) t0,
           completeRun
             { total_found := ldata.length, new_contractors := newCnt,
               profiles_rescraped := rescCnt, unchanged := metaUnch,
               updated_metadata := metaUpd } t1
             (mkRunningRun zipcode distance (freshRunId runs) t0)] := by
      simp only [incremental_refresh, hC, hN, hR, hM]
      rw [hfind]
      rfl
    refine ⟨_, _, htr, rfl, rfl, Or.inl rfl, rfl, ?_, ?_⟩
    · intro r hr
      rcases List.mem_cons.mp hr with h | h
      · subst h
        simp [mkRunningRun]
      · rcases List.mem_cons.mp h with h' | h'
        · subst h'
          constructor
          · intro hcon
            simp [completeRun] at hcon
          · intro hcon
            simp [completeRun] at hcon
        · exact absurd h' (List.not_mem_nil r)
    · exact List.chain'_cons.mpr ⟨⟨rfl, Or.inl rfl⟩, List.chain'_singleton _⟩

/-- A record with a falsy profile URL is skipped by the classification loop. -/
theorem classifyStep_skip (store : List Contractor)
    (acc : List ContractorData × List (ContractorData × String) × List ContractorData)
    (bad : ContractorData) (h : truthyStr bad.profile_url = false) :
    classifyStep store acc bad = acc := by
  obtain ⟨news, resc, meta⟩ := acc
  cases hd : bad.profile_url with
  | none => simp [classifyStep, hd]
  | some s =>
    have hs : s = "" := by simpa [truthyStr, hd] using h
    simp [classifyStep, hd, hs]

/-- Removing a falsy-URL record from the listing leaves all three buckets
unchanged. -/
theorem classifyBuckets_skip (store : List Contractor)
    (l1 l2 : List ContractorData) (bad : ContractorData)
    (h : truthyStr bad.profile_url = false) :
    classifyBuckets store (l1 ++ bad :: l2) = classifyBuckets store (l1 ++ l2) := by
  unfold classifyBuckets
  rw [List.foldl_append, List.foldl_cons, classifyStep_skip store _ bad h,
    ← List.foldl_append]

/-- C10: an observed record with an absent or empty profile URL is excluded
from the new/rescrape/metadata buckets, the refresh pass produces the same
store and the same counts apart from `total_found` (which still counts it),
and upserting such a record directly raises the source's
`profile_url is required` error. -/
theorem refresh_skips_blank_urls (zipcode : String) (distance : ℤ)
    (l1 l2 : List ContractorData) (bad : ContractorData)
    (hbad : truthyStr bad.profile_url = false)
    (detail : String → Except String (String × List String))
    (insight : ContractorData → Option String)
    (runs : List ScrapeRun) (store : List Contractor) (t0 t1 : Nat) :
    classifyBuckets store (l1 ++ bad :: l2) = classifyBuckets store (l1 ++ l2)
      ∧ (∃ sB, (incremental_refresh zipcode distance (.ok (l1 ++ l2)) detail
            insight runs store t0 t1).result = .ok sB
          ∧ (incremental_refresh zipcode distance (.ok (l1 ++ bad :: l2))
              detail insight runs store t0 t1).result
              = .ok { sB with total_found := sB.total_found + 1 }
          ∧ (incremental_refresh zipcode distance (.ok (l1 ++ bad :: l2))
              detail insight runs store t0 t1).store
              = (incremental_refresh zipcode distance (.ok (l1 ++ l2)) detail
                  insight runs store t0 t1).store)
      ∧ upsert_contractor store bad = .error "profile_url is required" := by
  refine ⟨classifyBuckets_skip store l1 l2 bad hbad, ?_,
    upsert_falsy_url store bad hbad⟩
  rcases hC : classifyBuckets store (l1 ++ l2) with ⟨news, resc, meta⟩
  have hC' : classifyBuckets store (l1 ++ bad :: l2) = (news, resc, meta) :=
    (classifyBuckets_skip store l1 l2 bad hbad).trans hC
  rcases hN : news.foldl (processNewStep detail insight) (store, 0) with
    ⟨store1, newCnt⟩
  rcases hR : resc.foldl (processRescrapeStep detail insight) (store1, 0) with
    ⟨store2, rescCnt⟩
  rcases hM : (if meta ≠ [] then update_metadata_only store2 meta t1
      else (store2, 0, 0)) with ⟨store3, metaUpd, metaUnch⟩
  refine ⟨{ total_found := (l1 ++ l2).length, new_contractors := newCnt,
            profiles_rescraped := rescCnt, unchanged := metaUnch,
            updated_metadata := metaUpd }, ?_, ?_, ?_⟩
  · simp only [incremental_refresh, hC, hN, hR, hM]
  · simp only [incremental_refresh, hC', hN, hR, hM]
    simp [List.length_append]
    omega
  · simp only [incremental_refresh, hC, hC', hN, hR, hM]

/-- C10 (witness): a three-record listing whose middle record has no profile
URL, run against an empty store. -/
theorem refresh_skips_blank_urls_witness :
    classifyBuckets [] ([w1] ++ wbad :: [w2]) = classifyBuckets [] ([w1] ++ [w2])
      ∧ (∃ sB, (incremental_refresh "10013" 25 (.ok ([w1] ++ [w2]))
            (fun _ => .ok ("d", [])) (fun _ => none) [] [] 0 1).result = .ok sB
          ∧ (incremental_refresh "10013" 25 (.ok ([w1] ++ wbad :: [w2]))
              (fun _ => .ok ("d", [])) (fun _ => none) [] [] 0 1).result
              = .ok { sB with total_found := sB.total_found + 1 }
          ∧ (incremental_refresh "10013" 25 (.ok ([w1] ++ wbad :: [w2]))
              (fun _ => .ok ("d", [])) (fun _ => none) [] [] 0 1).store
              = (incremental_refresh "10013" 25 (.ok ([w1] ++ [w2]))
                  (fun _ => .ok ("d", [])) (fun _ => none) [] [] 0 1).store)
      ∧ upsert_contractor [] wbad = .error "profile_url is required" :=
  refresh_skips_blank_urls "10013" 25 [w1] [w2] wbad rfl
    (fun _ => .ok ("d", [])) (fun _ => none) [] [] 0 1

end GafSales
